import Mathlib

/-!
Shallow embedding of `app2.py`: a student-roster program persisting to a
two-table SQLite store.  `Student`, `Group`, `Group.save_to_db` (as
`Group.save_run`) and `Group.load_from_db` are translated from the source;
the SQLite store is modelled as an explicit state (`DB`) whose tables are
lists of rows in scan order, with AUTOINCREMENT counters.

A decisive fact about the source: the triple-quoted SQL of both CREATE
TABLE statements (app2.py lines 70-89) contains Python-style `#` comments
inside the SQL text.  SQLite accepts only `--` and `/* */` comments, so
`cursor.execute` on the first CREATE TABLE raises
`sqlite3.OperationalError` (unrecognized token "#") on every call, and
`save_to_db` has no try/except: the exception propagates, and the DELETEs,
the insert loops, `conn.commit()` and `conn.close()` (lines 92-111) are
unreachable.  `Group.save_run` embeds exactly that behaviour.
-/

namespace App2

/-- One entry of a student's record book (the Python dict with keys
`subject`, `exam_date`, `teacher_name`). -/
structure Exam where
  subject : String
  exam_date : String
  teacher_name : String
  deriving DecidableEq

/-- `Student` from app2.py: identity fields plus the ordered record book. -/
structure Student where
  last_name : String
  first_name : String
  birth_date : String
  record_book : List Exam
  deriving DecidableEq

/-- `Student.__init__`: record book starts empty. -/
def Student.mk0 (last_name first_name birth_date : String) : Student :=
  ⟨last_name, first_name, birth_date, []⟩

/-- `Student.add_exam`: appends one entry to the end of the record book. -/
def Student.add_exam (s : Student) (subject exam_date teacher_name : String) : Student :=
  { s with record_book := s.record_book ++ [⟨subject, exam_date, teacher_name⟩] }

/-- `Group` from app2.py: the ordered list of students. -/
structure Group where
  students : List Student
  deriving DecidableEq

/-- `Group.__init__`: empty group. -/
def Group.mk0 : Group := ⟨[]⟩

/-- `Group.add_student`: appends to the end. -/
def Group.add_student (g : Group) (s : Student) : Group :=
  { g with students := g.students ++ [s] }

/-- A row of the `students` table: store-assigned id plus the three fields. -/
structure StudentRow where
  id : Nat
  last_name : String
  first_name : String
  birth_date : String
  deriving DecidableEq

/-- A row of the `exams` table: store-assigned id, owning student's id,
and the three exam fields. -/
structure ExamRow where
  id : Nat
  student_id : Nat
  subject : String
  exam_date : String
  teacher_name : String
  deriving DecidableEq

/-- The SQLite store state.  `tables_created` records whether the two tables
exist (false for a freshly created file).  Tables are lists of rows in the
store's natural scan order.  `next_student_id` / `next_exam_id` model the
AUTOINCREMENT sequence. -/
structure DB where
  tables_created : Bool
  students_table : List StudentRow
  exams_table : List ExamRow
  next_student_id : Nat
  next_exam_id : Nat
  deriving DecidableEq

/-- The store state obtained by `sqlite3.connect` on a path with no file:
an empty database with no tables; AUTOINCREMENT sequences start at 1. -/
def DB.fresh : DB := ⟨false, [], [], 1, 1⟩

/-- The exception every call to `save_to_db` raises: the SQL of the first
CREATE TABLE (app2.py lines 70-77) embeds Python-style `#` comments, which
SQLite rejects with `sqlite3.OperationalError: unrecognized token: "#"`. -/
inductive SaveError where
  | operationalErrorUnrecognizedTokenHash : SaveError
  deriving DecidableEq

/-- `Group.save_to_db`, faithfully: the method connects (line 66), then
executes the first CREATE TABLE (line 70), whose SQL text contains `#`
comments that SQLite rejects, raising `sqlite3.OperationalError` at once.
The method has no try/except, so the exception propagates to the caller;
the second CREATE, both DELETEs, the insert loops, `conn.commit()` and
`conn.close()` (lines 80-111) never execute.  Components: the exception
raised, the store as the method leaves it (unchanged — the rejected
statement modifies nothing), and whether `conn.close()` ran before control
left the method (it never does). -/
def Group.save_run (_g : Group) (db : DB) : SaveError × DB × Bool :=
  (SaveError.operationalErrorUnrecognizedTokenHash, db, false)

/-- Reconstruct one `Student` from a `students` row, as the load loop does:
`SELECT subject, exam_date, teacher_name FROM exams WHERE student_id = ?`
(no ORDER BY: rows come back in the store's scan order), then `add_exam`
for each row in order. -/
def rowToStudent (exams : List ExamRow) (r : StudentRow) : Student :=
  ⟨r.last_name, r.first_name, r.birth_date,
    (exams.filter (fun e => e.student_id = r.id)).map
      (fun e => ⟨e.subject, e.exam_date, e.teacher_name⟩)⟩

/-- `Group.load_from_db` together with a flag recording whether
`conn.close()` ran before the method returned.  Mirrors the source paths:
if the tables do not exist, the SELECT raises `sqlite3.Error`, the handler
returns None (no close); if the SELECT (`SELECT id, last_name, first_name,
birth_date FROM students`, no ORDER BY) yields zero rows, return None
(no close); otherwise rebuild the group, close, and return it. -/
def Group.load_run (db : DB) : Option Group × Bool :=
  if db.tables_created then
    if db.students_table.isEmpty then (none, false)
    else (some ⟨db.students_table.map (rowToStudent db.exams_table)⟩, true)
  else (none, false)

/-- `Group.load_from_db`: the value it returns. -/
def Group.load_from_db (db : DB) : Option Group := (Group.load_run db).1

/-- Referential integrity: every `exams` row references an existing
`students` row. -/
def refIntegrity (db : DB) : Prop :=
  ∀ e ∈ db.exams_table, ∃ r ∈ db.students_table, r.id = e.student_id

instance (db : DB) : Decidable (refIntegrity db) := by
  unfold refIntegrity
  infer_instance

/-- Python left-justified format `f"\x7bs:<w\x7d"`: pad with spaces on the
right up to width `w`; strings longer than `w` are left unchanged. -/
def padRight (s : String) (w : Nat) : String :=
  s ++ String.mk (List.replicate (w - s.length) ' ')

/-- The 50-dash separator line `"-" * 50`. -/
def sepLine : String := String.mk (List.replicate 50 '-')

/-- The header row of the table. -/
def headerLine : String :=
  padRight "№" 3 ++ " | " ++ padRight "Фамилия" 15 ++ " | " ++
    padRight "Имя" 15 ++ " | " ++ padRight "Дата рождения" 12

/-- One data row: 1-based ordinal and the three identity fields, formatted
with widths 3/15/15/12, pipe-separated. -/
def studentLine (i : Nat) (s : Student) : String :=
  padRight (toString i) 3 ++ " | " ++ padRight s.last_name 15 ++ " | " ++
    padRight s.first_name 15 ++ " | " ++ padRight s.birth_date 12

/-- The `for i, student in enumerate(self.students, 1)` loop. -/
def tableLines (i : Nat) : List Student → List String
  | [] => []
  | s :: rest => studentLine i s :: tableLines (i + 1) rest

/-- `Group.print_students_table`: the lines printed, in order, paired with
the state of the receiver when the method returns (the body only reads
`self.students`; no statement assigns to `self`). -/
def Group.print_students_table (g : Group) : List String × Group :=
  (["", "Список студентов группы:", sepLine, headerLine, sepLine]
      ++ tableLines 1 g.students ++ [sepLine], g)

/-- Causes of a store-access failure inside `load_from_db`'s try block;
each surfaces in Python as some subclass of `sqlite3.Error`. -/
inductive StoreError where
  | fileMissing : StoreError
  | corruptData : StoreError
  | permissionDenied : StoreError
  | schemaMismatch : StoreError
  deriving DecidableEq

/-- `load_from_db` including its `try/except sqlite3.Error` wrapper: the
store access either fails with some `sqlite3.Error` (then the handler
returns `None`) or yields a store state, which the body processes. -/
def Group.load_from_store : Except StoreError DB → Option Group
  | .error _ => none
  | .ok db => Group.load_from_db db

/-- `save_to_db` as a method call: the pair (receiver when control leaves
the method, outcome of the call).  The body only reads `self.students`; no
statement in it assigns to `self` or mutates a `Student` (the raise at
line 70 precedes even the loop), so the receiver component is the receiver
unchanged on every path. -/
def Group.save_method (g : Group) (db : DB) : Group × (SaveError × DB × Bool) :=
  (g, g.save_run db)

/-- The student from the spec's §8 scenario, with two exams. -/
def ivanov : Student :=
  ((Student.mk0 "Ivanov" "Ivan" "2000-01-01").add_exam
      "Math" "2023-01-10" "Petrov").add_exam "Physics" "2023-01-15" "Sidorov"

/-- A second student, no exams. -/
def petrov : Student := Student.mk0 "Petrov" "Petr" "2001-02-02"

/-- A `students` row with id 1. -/
def rowA : StudentRow := ⟨1, "Ivanov", "Ivan", "2000-01-01"⟩

/-- A `students` row with id 2. -/
def rowB : StudentRow := ⟨2, "Petrov", "Petr", "2001-02-02"⟩

/-- A store whose natural scan order (`rowB` before `rowA`) diverges from
ascending-id order. -/
def dbSwapped : DB := ⟨true, [rowB, rowA], [], 3, 1⟩

/-- The group `load_from_db` reconstructs from `dbSwapped`. -/
def gBA : Group :=
  ⟨[⟨"Petrov", "Petr", "2001-02-02", []⟩, ⟨"Ivanov", "Ivan", "2000-01-01", []⟩]⟩

/-- A store holding one student (id 1) with one exam: satisfies
referential integrity. -/
def dbOne : DB := ⟨true, [rowA], [⟨1, 1, "Math", "2023-01-10", "Petrov"⟩], 2, 2⟩

/-! ### Rendering lemmas -/

lemma padRight_length (s : String) (w : Nat) :
    (padRight s w).length = max w s.length := by
  rw [padRight, String.length_append]
  have h : (String.mk (List.replicate (w - s.length) ' ')).length = w - s.length := by
    rw [show (String.mk (List.replicate (w - s.length) ' ')).length =
        (List.replicate (w - s.length) ' ').length from rfl, List.length_replicate]
  rw [h]
  omega

lemma tableLines_getElem (ss : List Student) :
    ∀ j i, (tableLines j ss)[i]? = ss[i]?.map (fun s => studentLine (j + i) s) := by
  induction ss with
  | nil => intro j i; simp [tableLines]
  | cons s rest ih =>
      intro j i
      match i with
      | 0 => simp [tableLines]
      | i + 1 =>
          simp only [tableLines, List.getElem?_cons_succ, ih (j + 1) i]
          have : j + 1 + i = j + (i + 1) := by omega
          rw [this]

lemma tableLines_length (j : Nat) (ss : List Student) :
    (tableLines j ss).length = ss.length := by
  induction ss generalizing j with
  | nil => rfl
  | cons s rest ih => simp [tableLines, ih]

/-! ### The claims -/

/-- Claim C1, code bug: the round-trip the spec states is the clear intent
of `save_to_db`/`load_from_db`, but `save_to_db` raises
`sqlite3.OperationalError` at its first CREATE TABLE (the SQL embeds `#`
comments, app2.py:70-77) and persists nothing, so saving the nonempty
Ivanov roster to a fresh store and then loading yields `None`, not the
roster. -/
theorem C1_round_trip_bug :
    (Group.mk0.add_student ivanov).students ≠ []
    ∧ ((Group.mk0.add_student ivanov).save_run DB.fresh).1 =
        SaveError.operationalErrorUnrecognizedTokenHash
    ∧ ((Group.mk0.add_student ivanov).save_run DB.fresh).2.1 = DB.fresh
    ∧ Group.load_from_db ((Group.mk0.add_student ivanov).save_run DB.fresh).2.1 = none :=
  ⟨by decide, rfl, rfl, rfl⟩

/-- Claim C2, code bug: both saves raise at the first CREATE TABLE before
any DELETE or INSERT, so after save A; save B on a fresh store, loading
yields `None` rather than B's contents, and saving over a store that
already holds rows deletes nothing — the prior rows survive. -/
theorem C2_replace_bug :
    Group.load_from_db
        (((Group.mk0.add_student petrov).save_run
          (((Group.mk0.add_student ivanov).save_run DB.fresh).2.1)).2.1) = none
    ∧ ((Group.mk0.add_student petrov).save_run dbOne).2.1 = dbOne
    ∧ dbOne.students_table ≠ [] :=
  ⟨rfl, rfl, by decide⟩

/-- Claim C3, counterexample: a store "produced by saving a Roster with
zero students" need not load as `None` — the save raises at the first
CREATE TABLE before any DELETE, so over a store that already held a
student the rows survive and the subsequent load returns them. -/
theorem C3_counterexample :
    Group.load_from_db ((Group.mk0.save_run dbOne).2.1) =
      some ⟨[⟨"Ivanov", "Ivan", "2000-01-01", [⟨"Math", "2023-01-10", "Petrov"⟩]⟩]⟩ := rfl

/-- Claim C3 (amended: attempting to save a zero-student Roster leaves the
store unchanged — the save raises before any deletion — so it yields a
zero-row store only if the store already had zero rows): for every store
whose `students` table has zero rows, `load_from_db` returns `None`, not
an empty Roster, the attempted empty save changes no store, and
`load_from_db` never returns an empty Roster. -/
theorem C3_empty_store_absence (db : DB) (h : db.students_table = []) :
    Group.load_from_db db = none
    ∧ (∀ (g : Group) (db2 : DB), (g.save_run db2).2.1 = db2)
    ∧ (∀ (db2 : DB) (g2 : Group), Group.load_from_db db2 = some g2 →
        g2.students ≠ []) := by
  refine ⟨?_, fun g db2 => rfl, ?_⟩
  · simp [Group.load_from_db, Group.load_run, h]
  · intro db2 g2 hl
    simp only [Group.load_from_db, Group.load_run] at hl
    by_cases h1 : db2.tables_created
    · rw [if_pos h1] at hl
      by_cases h2 : db2.students_table.isEmpty
      · rw [if_pos h2] at hl
        simp at hl
      · rw [if_neg h2] at hl
        simp only at hl
        have hg2 : g2 = ⟨db2.students_table.map (rowToStudent db2.exams_table)⟩ :=
          (Option.some.inj hl).symm
        subst hg2
        simp_all [List.isEmpty_iff]
    · rw [if_neg h1] at hl
      simp at hl

/-- Claim C3, witness: a store with tables but zero student rows loads as
`None`. -/
theorem C3_empty_store_absence_witness :
    (⟨true, [], [], 5, 7⟩ : DB).students_table = [] ∧
      Group.load_from_db ⟨true, [], [], 5, 7⟩ = none :=
  ⟨rfl, (C3_empty_store_absence ⟨true, [], [], 5, 7⟩ rfl).1⟩

/-- Claim C4, counterexample: the load SELECT has no ORDER BY, so on a
store whose scan order puts the id-2 row before the id-1 row, the loaded
order follows the scan order, not ascending store-assigned ids. -/
theorem C4_id_order_counterexample :
    Group.load_from_db dbSwapped = some gBA
    ∧ gBA ≠ ⟨[⟨"Ivanov", "Ivan", "2000-01-01", []⟩,
        ⟨"Petrov", "Petr", "2001-02-02", []⟩]⟩ := by
  constructor
  · rfl
  · decide

/-- Claim C4 (amended: `load_from_db` issues no ORDER BY and returns
students in the store's natural scan order, not necessarily ascending-id
order; and no store is ever written by `save_to_db` — it raises at the
first CREATE TABLE leaving the store unchanged — so the add-A-B/save/load
scenario returns whatever the untouched store held, `None` on a fresh
store): loaded order equals scan order, and an attempted save changes no
load result. -/
theorem C4_scan_order (db : DB) (g : Group) (h : Group.load_from_db db = some g) :
    g.students.map (fun s => (s.last_name, s.first_name, s.birth_date)) =
      db.students_table.map (fun r => (r.last_name, r.first_name, r.birth_date))
    ∧ (∀ (A B2 : Student) (db2 : DB),
        Group.load_from_db ((((Group.mk0.add_student A).add_student B2).save_run db2).2.1) =
          Group.load_from_db db2)
    ∧ (∀ A B2 : Student,
        Group.load_from_db
          ((((Group.mk0.add_student A).add_student B2).save_run DB.fresh).2.1) = none) := by
  refine ⟨?_, fun A B2 db2 => rfl, fun A B2 => rfl⟩
  simp only [Group.load_from_db, Group.load_run] at h
  by_cases h1 : db.tables_created
  · rw [if_pos h1] at h
    by_cases h2 : db.students_table.isEmpty
    · rw [if_pos h2] at h
      simp at h
    · rw [if_neg h2] at h
      simp only at h
      have hg : g = ⟨db.students_table.map (rowToStudent db.exams_table)⟩ :=
        (Option.some.inj h).symm
      subst hg
      rw [show (⟨db.students_table.map (rowToStudent db.exams_table)⟩ : Group).students =
        db.students_table.map (rowToStudent db.exams_table) from rfl, List.map_map]
      rfl
  · rw [if_neg h1] at h
    simp at h

/-- Claim C4, witness: on the swapped-scan-order store, the loaded student
order equals the table's scan order. -/
theorem C4_scan_order_witness :
    Group.load_from_db dbSwapped = some gBA ∧
      gBA.students.map (fun s => (s.last_name, s.first_name, s.birth_date)) =
        dbSwapped.students_table.map (fun r => (r.last_name, r.first_name, r.birth_date)) :=
  ⟨rfl, (C4_scan_order dbSwapped gBA rfl).1⟩

/-- Claim C5: every store-access failure during load (any `sqlite3.Error`:
file missing, corrupt data, permission denied, schema mismatch) makes
`load_from_db` return the uniform `None` signal rather than propagating,
indistinguishable from the empty-store case. -/
theorem C5_uniform_failure :
    (∀ e : StoreError, Group.load_from_store (Except.error e) = none)
    ∧ (∀ e1 e2 : StoreError,
        Group.load_from_store (Except.error e1) = Group.load_from_store (Except.error e2))
    ∧ (∀ (e : StoreError) (db : DB), db.students_table = [] →
        Group.load_from_store (Except.error e) = Group.load_from_store (Except.ok db)) := by
  refine ⟨fun e => rfl, fun e1 e2 => rfl, fun e db h => ?_⟩
  simp [Group.load_from_store, Group.load_from_db, Group.load_run, h]

/-- Claim C5, witness: a missing file and a corrupt file both load as
`None`, the same as a store with an empty `students` table. -/
theorem C5_uniform_failure_witness :
    Group.load_from_store (Except.error StoreError.fileMissing) = none
    ∧ Group.load_from_store (Except.error StoreError.corruptData) =
        Group.load_from_store (Except.ok ⟨true, [], [], 1, 1⟩) :=
  ⟨C5_uniform_failure.1 StoreError.fileMissing,
    C5_uniform_failure.2.2 StoreError.corruptData ⟨true, [], [], 1, 1⟩ rfl⟩

/-- Claim C6, code bug: the create/delete/insert/commit/close sequence the
spec states is the clear intent of `save_to_db`, but the method executes
only its first statement — the CREATE TABLE whose SQL embeds `#` comments
— which SQLite rejects with `sqlite3.OperationalError`; the exception
propagates and none of the remaining steps run, the store untouched and
the connection never closed. -/
theorem C6_save_raises :
    (⟨[ivanov]⟩ : Group).save_run DB.fresh =
      (SaveError.operationalErrorUnrecognizedTokenHash, DB.fresh, false)
    ∧ ((⟨[ivanov]⟩ : Group).save_run dbOne).2.1 = dbOne :=
  ⟨rfl, rfl⟩

/-- Claim C7, code bug: the claimed mechanism — exams rows deleted before
students rows, each exams row inserted only after its owning students row
— never executes: the save raises at the first CREATE TABLE, so over a
store holding exam rows nothing is ever deleted or inserted and the store
is left exactly as it was. -/
theorem C7_save_never_deletes :
    ((⟨[ivanov]⟩ : Group).save_run dbOne).2.1 = dbOne
    ∧ dbOne.exams_table ≠ []
    ∧ ((⟨[ivanov]⟩ : Group).save_run dbOne).1 =
        SaveError.operationalErrorUnrecognizedTokenHash :=
  ⟨rfl, by decide, rfl⟩

/-- Claim C8, counterexample: on a store whose `students` table has zero
rows, `load_from_db` returns (`None`) without ever calling `conn.close()`
— the early `return None` at the zero-rows check skips the close, so the
connection outlives the call. -/
theorem C8_connection_counterexample :
    Group.load_run ⟨true, [], [], 1, 1⟩ = (none, false) := rfl

/-- Claim C8 (amended: `load_from_db` closes its connection before
returning only on the successful-load path; on the zero-rows path and on
the `sqlite3.Error` path it returns `None` without closing; and
`save_to_db` never closes its connection — `conn.close()` at line 111 is
unreachable because every save raises at the first CREATE TABLE, line
70): where the connection is and is not closed. -/
theorem C8_connection (g : Group) (db : DB) :
    (g.save_run db).2.2 = false
    ∧ (∀ (db2 : DB) (g2 : Group),
        (Group.load_run db2).1 = some g2 → (Group.load_run db2).2 = true)
    ∧ (∀ db2 : DB, db2.tables_created = true → db2.students_table = [] →
        Group.load_run db2 = (none, false))
    ∧ (∀ db2 : DB, db2.tables_created = false → Group.load_run db2 = (none, false)) := by
  refine ⟨rfl, ?_, ?_, ?_⟩
  · intro db2 g2 hl
    simp only [Group.load_run] at hl ⊢
    by_cases h1 : db2.tables_created
    · by_cases h2 : db2.students_table.isEmpty
      · simp [h1, h2] at hl
      · simp [h1, h2]
    · simp [h1] at hl
  · intro db2 h1 h2
    simp [Group.load_run, h1, h2]
  · intro db2 h1
    simp [Group.load_run, h1]

/-- Claim C8, witness: an attempted save leaves its connection unclosed,
and a successful load (one student row) closes its connection. -/
theorem C8_connection_witness :
    (Group.mk0.save_run DB.fresh).2.2 = false ∧ (Group.load_run dbOne).2 = true :=
  ⟨(C8_connection Group.mk0 DB.fresh).1,
    (C8_connection Group.mk0 DB.fresh).2.1 dbOne
      ⟨[⟨"Ivanov", "Ivan", "2000-01-01", [⟨"Math", "2023-01-10", "Petrov"⟩]⟩]⟩ rfl⟩

/-- Claim C9: `print_students_table` lists the students in the order they
were added, numbered from 1, one fixed-width pipe-separated row per
student with column widths 3/15/15/12 (Python left-justification: the
width is a minimum), bounded by separator lines of 50 dashes, and leaves
the Roster unchanged. -/
theorem C9_render_table (g : Group) (i : Nat) (h : i < g.students.length) :
    (g.print_students_table.1)[5 + i]? = some (studentLine (i + 1) g.students[i])
    ∧ g.print_students_table.1.length = g.students.length + 6
    ∧ (g.print_students_table.1)[2]? = some sepLine
    ∧ (g.print_students_table.1)[4]? = some sepLine
    ∧ (g.print_students_table.1)[5 + g.students.length]? = some sepLine
    ∧ sepLine.length = 50
    ∧ (∀ c ∈ sepLine.data, c = '-')
    ∧ (∀ (j : Nat) (s : Student),
        studentLine j s = padRight (toString j) 3 ++ " | " ++ padRight s.last_name 15 ++
          " | " ++ padRight s.first_name 15 ++ " | " ++ padRight s.birth_date 12)
    ∧ (∀ (s : String) (w : Nat), (padRight s w).length = max w s.length)
    ∧ g.print_students_table.2 = g := by
  have hsplit : g.print_students_table.1 =
      ["", "Список студентов группы:", sepLine, headerLine, sepLine]
        ++ (tableLines 1 g.students ++ [sepLine]) := by
    simp [Group.print_students_table, List.append_assoc]
  have hpre5 : (["", "Список студентов группы:", sepLine, headerLine, sepLine] :
      List String).length = 5 := rfl
  refine ⟨?_, ?_, ?_, ?_, ?_, rfl, ?_, fun j s => rfl, padRight_length, rfl⟩
  · rw [hsplit, List.getElem?_append_right (by simp : (["", "Список студентов группы:",
        sepLine, headerLine, sepLine] : List String).length ≤ 5 + i)]
    rw [hpre5, show 5 + i - 5 = i from by omega]
    rw [List.getElem?_append_left (by rw [tableLines_length]; exact h)]
    rw [tableLines_getElem g.students 1 i, List.getElem?_eq_getElem h]
    simp [Nat.add_comm]
  · rw [hsplit]
    simp [tableLines_length]
  · rw [hsplit]
    rfl
  · rw [hsplit]
    simp
  · rw [hsplit, List.getElem?_append_right (by simp : (["", "Список студентов группы:",
        sepLine, headerLine, sepLine] : List String).length ≤ 5 + g.students.length)]
    rw [hpre5, show 5 + g.students.length - 5 = g.students.length from by omega]
    rw [List.getElem?_append_right (by simp [tableLines_length])]
    simp [tableLines_length]
  · intro c hc
    exact List.eq_of_mem_replicate hc

/-- Claim C9, witness: the first data row of a one-student roster's table
is that student, numbered 1. -/
theorem C9_render_table_witness :
    0 < (⟨[ivanov]⟩ : Group).students.length
    ∧ ((⟨[ivanov]⟩ : Group).print_students_table.1)[5 + 0]? =
        some (studentLine (0 + 1) (⟨[ivanov]⟩ : Group).students[0]) :=
  ⟨by decide, (C9_render_table ⟨[ivanov]⟩ 0 (by decide)).1⟩

/-- Claim C10: `save_to_db` leaves the in-memory Roster unchanged — its
body only reads `self.students` and assigns only to locals, on every path
including the raising one; after the call the receiver is the same Group,
with the same students. -/
theorem C10_save_frame (g : Group) (db : DB) :
    (g.save_method db).1 = g
    ∧ (g.save_method db).1.students = g.students
    ∧ (g.save_method db).2 = g.save_run db :=
  ⟨rfl, rfl, rfl⟩

end App2
